import Mathlib

/-!
Verification of the deployment script src/deploy.py of hliam/remote-control.

The script is a single-file CLI tool that builds, installs, schedules at
startup, kills and uninstalls one background executable.  We give a shallow
embedding of its state and operations:

* the filesystem is a set of files (each a directory/basename pair) together
  with a set of directories; file contents are not modeled except for one
  boolean flag (whether the source .env text contains the KEY setting),
  which is the only content the script ever reads;
* Python exceptions become an explicit error type threaded through
  Except; a with-suppress block becomes a match that restores the
  pre-raise state on a suppressed error;
* external processes (cargo build, taskkill, pgrep, pkill, Popen launch)
  are modeled by boolean fields of the system state saying how the external
  world behaves (build exits zero, the kill utility malfunctions, a process
  with the managed name is running);
* sys.exit with no argument yields exit status 0, an uncaught exception
  yields exit status 1; both are recorded in the outcome of main.

The win32 instantiation of the module is embedded in full (on macOS the
module cannot even be imported: the _MacOSScheduler class body assigns
self._cron with the name self unbound).  The macOS kill path and the macOS
unschedule method body are embedded separately where a claim needs them.
-/

/-- A path, as a directory plus a basename.  All paths the script touches
live directly inside one of four directories (the repository directory, the
target/release build directory, the install root, the startup folder), so a
flat two-component representation is faithful. -/
structure FsPath where
  dir : String
  base : String
deriving DecidableEq

/-- Python identifiers that the macOS scheduler code references without a
binding in scope. -/
inductive PyName
  | cron
deriving DecidableEq

/-- The two message texts raised through ProcessKillError in the source:
the pgrep-based check message and the generic stderr message. -/
inductive KillMsg
  | isntRunning
  | wentWrong
deriving DecidableEq

/-- The exceptions that can cross a function boundary in the embedded code. -/
inductive Err
  | fileNotFound
  | fileExistsErr
  | dirNotEmpty
  | processKillError (m : KillMsg)
  | notScheduled
  | calledProcessError
  | nameError (n : PyName)
deriving DecidableEq

deriving instance DecidableEq for Except

/-- Filesystem state: the set of existing files and of existing directories.
Directory existence is tracked only for the install root, which is the one
directory the script creates and removes; files of OS-managed directories
(startup folder, repository) are modeled without a parent-directory
existence requirement. -/
structure FS where
  files : List FsPath
  dirs : List String
deriving DecidableEq

def FS.fileExists (fs : FS) (p : FsPath) : Prop := p ∈ fs.files

def FS.dirExists (fs : FS) (d : String) : Prop := d ∈ fs.dirs

/-- rmdir raises the directory-not-empty OSError exactly when a file is
still inside the directory. -/
def FS.dirNonEmpty (fs : FS) (d : String) : Prop := ∃ p ∈ fs.files, p.dir = d

instance (fs : FS) (p : FsPath) : Decidable (fs.fileExists p) :=
  inferInstanceAs (Decidable (p ∈ fs.files))

instance (fs : FS) (d : String) : Decidable (fs.dirExists d) :=
  inferInstanceAs (Decidable (d ∈ fs.dirs))

instance (fs : FS) (d : String) : Decidable (fs.dirNonEmpty d) :=
  inferInstanceAs (Decidable (∃ p ∈ fs.files, p.dir = d))

/-- Remove a file from the filesystem (no error reported). -/
def FS.eraseFile (fs : FS) (p : FsPath) : FS :=
  { fs with files := fs.files.filter (fun q => !decide (q = p)) }

/-- Add a file to the filesystem. -/
def FS.addFile (fs : FS) (p : FsPath) : FS :=
  { fs with files := p :: fs.files }

/-- Path.unlink: delete the file, raising FileNotFoundError if absent. -/
def FS.unlink (fs : FS) (p : FsPath) : Except Err FS :=
  if fs.fileExists p then .ok (fs.eraseFile p) else .error Err.fileNotFound

/-- shutil.copy: copy src over dst, raising FileNotFoundError if the source
is absent.  Contents are not modeled, so copying is recorded as the
destination existing. -/
def FS.copy (fs : FS) (src dst : FsPath) : Except Err FS :=
  if fs.fileExists src then .ok (fs.addFile dst) else .error Err.fileNotFound

/-- Path.mkdir: raises FileExistsError when the directory already exists. -/
def FS.mkdir (fs : FS) (d : String) : Except Err FS :=
  if fs.dirExists d then .error Err.fileExistsErr
  else .ok { fs with dirs := d :: fs.dirs }

/-- Path.rmdir: raises FileNotFoundError when the directory is absent and
the directory-not-empty OSError when a file remains inside it.  The latter
is an OSError but not a FileNotFoundError, so suppress(FileNotFoundError)
does not swallow it. -/
def FS.rmdir (fs : FS) (d : String) : Except Err FS :=
  if ¬ fs.dirExists d then .error Err.fileNotFound
  else if fs.dirNonEmpty d then .error Err.dirNotEmpty
  else .ok { fs with dirs := fs.dirs.filter (fun x => !decide (x = d)) }

/-! Constants of the win32 instantiation (deploy.py lines 15, 30 to 76).
The concrete directory strings stand for the absolute paths computed when
the module is imported; only their distinctness matters. -/

/-- DeployFile.src_base: the directory of deploy.py itself. -/
def src_base : String := "/repo"

/-- src_base joined with target/release, where cargo puts the executable. -/
def target_release : String := "/repo/target/release"

/-- DeployFile.dst_base on win32: the expanded ~/AppData/Local/remote_control. -/
def dst_base : String := "~/AppData/Local/remote_control"

/-- The expanded win32 startup folder
~/AppData/Roaming/Microsoft/Windows/Start Menu/Programs/Startup. -/
def startup_folder : String := "~/AppData/Roaming/Microsoft/Windows/Start Menu/Programs/Startup"

/-- exe_name on win32: remote_control.exe. -/
def exe_name : String := "remote_control.exe"

/-- A file with a source (copy from) and a destination (copy to). -/
structure DeployFile where
  src : FsPath
  dst : FsPath
deriving DecidableEq

/-- DeployFile(Path(target/release, exe_name), exe_name). -/
def exe_file : DeployFile :=
  { src := { dir := target_release, base := exe_name },
    dst := { dir := dst_base, base := exe_name } }

/-- DeployFile(.env). -/
def dot_env_file : DeployFile :=
  { src := { dir := src_base, base := ".env" },
    dst := { dir := dst_base, base := ".env" } }

/-- DeployFile(Rocket.toml). -/
def rocket_config_file : DeployFile :=
  { src := { dir := src_base, base := "Rocket.toml" },
    dst := { dir := dst_base, base := "Rocket.toml" } }

/-- files_to_deploy on win32: the executable, the Rocket config and the
.env file (the start script is deployed by the scheduler instead). -/
def files_to_deploy : List DeployFile := [exe_file, rocket_config_file, dot_env_file]

/-- DeployFile(start.bat, startup_folder / start_remote_control.bat).  The
second argument is an absolute path, and pathlib discards the left operand
when joining with an absolute right operand, so the destination is the file
start_remote_control.bat inside the startup folder. -/
def start_script : DeployFile :=
  { src := { dir := src_base, base := "start.bat" },
    dst := { dir := startup_folder, base := "start_remote_control.bat" } }

/-- The destinations of the install set. -/
def dstList : List FsPath := files_to_deploy.map (fun f => f.dst)

/-- DeployFile.remove: with suppress(FileNotFoundError): self.dst.unlink(). -/
def DeployFile.remove (f : DeployFile) (fs : FS) : Except Err FS :=
  match fs.unlink f.dst with
  | .ok fs2 => .ok fs2
  | .error e => if e = Err.fileNotFound then .ok fs else .error e

/-- DeployFile.deploy: self.remove(), then
with suppress(FileNotFoundError): copy(self.src, self.dst). -/
def DeployFile.deploy (f : DeployFile) (fs : FS) : Except Err FS :=
  match f.remove fs with
  | .error e => .error e
  | .ok fs2 =>
    match fs2.copy f.src f.dst with
    | .ok fs3 => .ok fs3
    | .error e => if e = Err.fileNotFound then .ok fs2 else .error e

/-- System state: the filesystem plus the facts about the outside world the
script consults (whether the named process runs, whether the OS kill
utility malfunctions, whether the KEY environment variable is set, whether
the source .env text contains KEY, whether cargo build exits zero). -/
structure Sys where
  fs : FS
  running : Bool
  killToolFails : Bool
  keyEnvVar : Bool
  dotEnvHasKey : Bool
  buildOk : Bool
deriving DecidableEq

/-- kill_process on win32: run taskkill and raise
ProcessKillError(went wrong) on any stderr output.  taskkill writes to
stderr both when the target process does not exist and on any other
failure, so the two cases produce the same exception (the source marks
this with a TODO comment). -/
def kill_process_win (s : Sys) : Except Err Sys :=
  if s.running && !s.killToolFails then .ok { s with running := false }
  else .error (Err.processKillError KillMsg.wentWrong)

/-- kill_process on macOS: pgrep first (raising ProcessKillError with the
isnt-running message when nothing matches), then pkill, raising
ProcessKillError with the went-wrong message on any stderr output. -/
def kill_process_mac (s : Sys) : Except Err Sys :=
  if !s.running then .error (Err.processKillError KillMsg.isntRunning)
  else if s.killToolFails then .error (Err.processKillError KillMsg.wentWrong)
  else .ok { s with running := false }

/-- _WindowsScheduler.is_scheduled: the start script exists in the startup
folder. -/
def is_scheduled (fs : FS) : Prop := fs.fileExists start_script.dst

instance (fs : FS) : Decidable (is_scheduled fs) :=
  inferInstanceAs (Decidable (fs.fileExists start_script.dst))

/-- _WindowsScheduler.schedule: start_script.deploy(). -/
def schedule (fs : FS) : Except Err FS := start_script.deploy fs

/-- _WindowsScheduler.unschedule: unlink the startup file, converting
FileNotFoundError into NotScheduledError. -/
def unschedule (fs : FS) : Except Err FS :=
  match fs.unlink start_script.dst with
  | .ok fs2 => .ok fs2
  | .error e => if e = Err.fileNotFound then .error Err.notScheduled else .error e

/-- _MacOSScheduler.unschedule as written:
try cron.remove(cls._get_cron_command()) except TypeError raise
NotScheduledError.  The name cron has no binding in scope (schedule binds
cron only inside its own with-statement), so evaluating the call target
raises NameError before the crontab is consulted, and NameError is not a
TypeError, so the handler never converts it to NotScheduledError.  The
argument says whether a matching cron entry exists; it is never reached.
(The class body itself already fails at import on macOS, assigning
self._cron with the name self unbound.) -/
def macUnschedule (_scheduledCron : Bool) : Except Err Bool :=
  .error (Err.nameError PyName.cron)

/-- The messages print_info writes during the three operations. -/
inductive InfoMsg
  | processKilled
  | oldProcessKilled
  | processNotRunning
  | scheduledAtStartup
  | removedFiles
  | unscheduledAtStartup
  | uninstalled
  | processStarted
deriving DecidableEq

/-- The messages exit_with_err prints, each as a single line starting with
the [error] tag. -/
inductive ErrMsg
  | noRocketToml
  | keyMissing
deriving DecidableEq

/-- One line of console output. -/
inductive Line
  | errLine (m : ErrMsg)
  | infoLine (m : InfoMsg)
  | locationLine
deriving DecidableEq

/-- The result of running one orchestrator operation: the final state, the
lines printed, and the exception propagating out of it, if any. -/
structure Run where
  sys : Sys
  log : List Line
  err : Option Err
deriving DecidableEq

/-- with suppress(ProcessKillError): kill_process(exe_name);
print_info(process killed) - as at the start of uninstall.  kill_process
raises only ProcessKillError, so the suppression catches every error
branch. -/
def killStepUninstall (s : Sys) : Sys × List Line :=
  match kill_process_win s with
  | .ok s2 => (s2, [Line.infoLine InfoMsg.processKilled])
  | .error _ => (s, [])

/-- with suppress(ProcessKillError): kill_process(exe_name);
print_info(old process killed) - as in deploy_all. -/
def killStep (s : Sys) : Sys × List Line :=
  match kill_process_win s with
  | .ok s2 => (s2, [Line.infoLine InfoMsg.oldProcessKilled])
  | .error _ => (s, [])

/-- The per-file loop of uninstall: for each registered file,
with suppress(FileNotFoundError): file.dst.unlink().  The loop body
coincides with DeployFile.remove. -/
def removeDeployed (fs : FS) : Except Err FS :=
  files_to_deploy.foldlM (fun acc f => f.remove acc) fs

/-- The tail of uninstall after the rmdir step:
with suppress(NotScheduledError): Scheduler.unschedule();
print_info(unscheduled); then print_info(uninstalled). -/
def uninstallTail (s : Sys) (log : List Line) : Run :=
  match unschedule s.fs with
  | .ok fs2 =>
      { sys := { s with fs := fs2 },
        log := log ++ [Line.infoLine InfoMsg.unscheduledAtStartup,
                       Line.infoLine InfoMsg.uninstalled],
        err := none }
  | .error e =>
      if e = Err.notScheduled then
        { sys := s, log := log ++ [Line.infoLine InfoMsg.uninstalled], err := none }
      else { sys := s, log := log, err := some e }

/-- uninstall (deploy.py lines 222 to 244): kill with suppression, unlink
every destination with per-file suppression, rmdir the install root with
suppress(FileNotFoundError) only, unschedule with suppression, then report
uninstalled. -/
def uninstall (s : Sys) : Run :=
  let k := killStepUninstall s
  match removeDeployed k.1.fs with
  | .error e => { sys := k.1, log := k.2, err := some e }
  | .ok fs2 =>
    match fs2.rmdir dst_base with
    | .ok fs3 =>
        uninstallTail { k.1 with fs := fs3 }
          (k.2 ++ [Line.infoLine InfoMsg.removedFiles])
    | .error e =>
        if e = Err.fileNotFound then uninstallTail { k.1 with fs := fs2 } k.2
        else { sys := { k.1 with fs := fs2 }, log := k.2, err := some e }

/-- with suppress(FileExistsError): DeployFile.dst_base.mkdir().  In this
model mkdir fails only with FileExistsError. -/
def ensureRoot (fs : FS) : FS :=
  match fs.mkdir dst_base with
  | .ok fs2 => fs2
  | .error _ => fs

/-- The deploy loop: for each registered file, deploy_file.deploy(); an
exception from a deploy would propagate. -/
def deployAllFiles (fs : FS) : Except Err FS :=
  files_to_deploy.foldlM (fun acc f => f.deploy acc) fs

/-- execute_file(exe_file.dst, True): Popen launches the deployed
executable in the background; Popen raises FileNotFoundError when the path
does not exist. -/
def execute_file_bg (s : Sys) : Except Err Sys :=
  if s.fs.fileExists exe_file.dst then .ok { s with running := true }
  else .error Err.fileNotFound

/-- deploy_all (deploy.py lines 247 to 270): ensure the install root, run
cargo build (check_call raises CalledProcessError on a non-zero exit), kill
with suppression, deploy every file, schedule when not scheduled, then
launch the executable in the background. -/
def deploy_all (s : Sys) : Run :=
  let fs1 := ensureRoot s.fs
  if s.buildOk = false then
    { sys := { s with fs := fs1 }, log := [], err := some Err.calledProcessError }
  else
    let k := killStep { s with fs := fs1 }
    match deployAllFiles k.1.fs with
    | .error e => { sys := k.1, log := k.2, err := some e }
    | .ok fs3 =>
      if is_scheduled fs3 then
        match execute_file_bg { k.1 with fs := fs3 } with
        | .ok s4 =>
            { sys := s4,
              log := k.2 ++ [Line.infoLine InfoMsg.processStarted], err := none }
        | .error e => { sys := { k.1 with fs := fs3 }, log := k.2, err := some e }
      else
        match schedule fs3 with
        | .error e => { sys := { k.1 with fs := fs3 }, log := k.2, err := some e }
        | .ok fs4 =>
          match execute_file_bg { k.1 with fs := fs4 } with
          | .ok s4 =>
              { sys := s4,
                log := k.2 ++ [Line.infoLine InfoMsg.scheduledAtStartup,
                               Line.infoLine InfoMsg.processStarted],
                err := none }
          | .error e =>
              { sys := { k.1 with fs := fs4 },
                log := k.2 ++ [Line.infoLine InfoMsg.scheduledAtStartup],
                err := some e }

/-- handle_invalid_config (deploy.py lines 195 to 208): exit with an error
when Rocket.toml is missing from the repository; return when KEY is in the
environment (checked first, short-circuiting) or the source .env exists and
its text contains KEY (a missing .env raises FileNotFoundError, which the
surrounding suppress swallows, falling through to the error); otherwise
exit with the key-missing error.  Returns the error message passed to
exit_with_err, if any. -/
def handle_invalid_config (s : Sys) : Option ErrMsg :=
  if ¬ s.fs.fileExists rocket_config_file.src then some ErrMsg.noRocketToml
  else if s.keyEnvVar then none
  else if s.fs.fileExists dot_env_file.src ∧ s.dotEnvHasKey then none
  else some ErrMsg.keyMissing

/-- The resolved command-line action: exactly one of the mutually exclusive
flags, or the default deploy.  -h is handled by argparse inside get_args,
which prints usage and exits before handle_invalid_config runs, so it does
not reach main. -/
inductive Args
  | location
  | killFlag
  | uninstallFlag
  | deployDefault
deriving DecidableEq

/-- The observable outcome of one program invocation: final state, console
lines, the process exit status, and the exception reaching the interpreter
top level, if any.  sys.exit() with no argument exits with status 0; an
uncaught exception makes the interpreter exit with status 1 (after a
traceback, which is not an [error] line). -/
structure Outcome where
  sys : Sys
  log : List Line
  exitCode : Nat
  uncaught : Option Err
deriving DecidableEq

/-- Wrap an orchestrator run into a program outcome. -/
def runToOutcome (r : Run) : Outcome :=
  match r.err with
  | none => { sys := r.sys, log := r.log, exitCode := 0, uncaught := none }
  | some e => { sys := r.sys, log := r.log, exitCode := 1, uncaught := some e }

/-- The embedding of main (deploy.py lines 273 to 289): parse arguments, run
handle_invalid_config before dispatching on the action (so the
configuration check precedes every action, the location query included),
then dispatch.  The kill branch catches ProcessKillError, the only
exception kill_process raises, and reports the process as not running. -/
def mainFn (a : Args) (s : Sys) : Outcome :=
  match handle_invalid_config s with
  | some m => { sys := s, log := [Line.errLine m], exitCode := 0, uncaught := none }
  | none =>
    match a with
    | Args.location =>
        { sys := s, log := [Line.locationLine], exitCode := 0, uncaught := none }
    | Args.killFlag =>
        match kill_process_win s with
        | .ok s2 =>
            { sys := s2, log := [Line.infoLine InfoMsg.processKilled],
              exitCode := 0, uncaught := none }
        | .error _ =>
            { sys := s, log := [Line.infoLine InfoMsg.processNotRunning],
              exitCode := 0, uncaught := none }
    | Args.uninstallFlag => runToOutcome (uninstall s)
    | Args.deployDefault => runToOutcome (deploy_all s)

/-! Concrete states used to instantiate the theorems below. -/

/-- The empty filesystem. -/
def fsEmpty : FS := { files := [], dirs := [] }

/-- A filesystem holding a previously deployed executable but no build
output: destination present, source absent. -/
def fsW10 : FS := { files := [exe_file.dst], dirs := [dst_base] }

/-- A previous install (executable and .env deployed) with no build output. -/
def fsC1 : FS := { files := [exe_file.dst, dot_env_file.dst], dirs := [dst_base] }

/-- A stray user file sitting inside the install root. -/
def strayFile : FsPath := { dir := dst_base, base := "stray.txt" }

/-- A baseline system with a valid configuration (Rocket.toml present in
the repository, KEY in the environment), no running process, healthy
tools. -/
def sysOkBase : Sys :=
  { fs := { files := [rocket_config_file.src], dirs := [] },
    running := false, killToolFails := false,
    keyEnvVar := true, dotEnvHasKey := false, buildOk := true }

/-- Valid configuration, the managed process running, and a kill utility
that fails for a reason other than the process being absent. -/
def sC3 : Sys := { sysOkBase with running := true, killToolFails := true }

/-- The process is not running (and the kill utility is healthy). -/
def sNR : Sys := sysOkBase

/-- The process is running but the kill utility malfunctions. -/
def sTF : Sys := { sysOkBase with running := true, killToolFails := true }

/-- Invalid configuration: no Rocket.toml anywhere. -/
def sC5 : Sys :=
  { fs := fsEmpty, running := false, killToolFails := false,
    keyEnvVar := true, dotEnvHasKey := false, buildOk := true }

/-- Rocket.toml present but the key is nowhere: no KEY environment
variable and no source .env file. -/
def sC7 : Sys :=
  { fs := { files := [rocket_config_file.src], dirs := [] },
    running := false, killToolFails := false,
    keyEnvVar := false, dotEnvHasKey := false, buildOk := true }

/-- An install root that exists and contains a stray user file. -/
def sC2 : Sys :=
  { fs := { files := [strayFile, rocket_config_file.src], dirs := [dst_base] },
    running := false, killToolFails := false,
    keyEnvVar := true, dotEnvHasKey := false, buildOk := true }

/-- All four source files of the install set. -/
def srcFiles : List FsPath :=
  [exe_file.src, rocket_config_file.src, dot_env_file.src, start_script.src]

/-- All sources present and a stray user file inside the existing install
root: Deploy succeeds but the following Uninstall hits the non-empty
directory. -/
def sC9 : Sys :=
  { fs := { files := strayFile :: srcFiles, dirs := [dst_base] },
    running := false, killToolFails := false,
    keyEnvVar := true, dotEnvHasKey := false, buildOk := true }

/-- All sources present, nothing installed yet. -/
def sW9 : Sys :=
  { fs := { files := srcFiles, dirs := [] },
    running := false, killToolFails := false,
    keyEnvVar := true, dotEnvHasKey := false, buildOk := true }

/-- Valid configuration but a build that exits non-zero. -/
def sW5 : Sys := { sysOkBase with buildOk := false }

/-- States that a deploy raises some exception. -/
def deployRaises (f : DeployFile) (fs : FS) : Prop :=
  ∃ e, f.deploy fs = .error e

/-! Helper lemmas about the filesystem operations. -/

theorem mem_eraseFile {fs : FS} {p q : FsPath} :
    (fs.eraseFile p).fileExists q ↔ fs.fileExists q ∧ q ≠ p := by
  simp [FS.eraseFile, FS.fileExists, List.mem_filter]

theorem dirs_eraseFile (fs : FS) (p : FsPath) : (fs.eraseFile p).dirs = fs.dirs := rfl

theorem mem_addFile {fs : FS} {p q : FsPath} :
    (fs.addFile p).fileExists q ↔ q = p ∨ fs.fileExists q := by
  simp [FS.addFile, FS.fileExists]

theorem dirs_addFile (fs : FS) (p : FsPath) : (fs.addFile p).dirs = fs.dirs := rfl

theorem eraseFile_of_not_mem {fs : FS} {p : FsPath} (h : ¬ fs.fileExists p) :
    fs.eraseFile p = fs := by
  have hf : fs.files.filter (fun q => !decide (q = p)) = fs.files := by
    apply List.filter_eq_self.mpr
    intro a ha
    have hne : a ≠ p := by
      intro e
      exact h (e ▸ ha)
    simp [hne]
  unfold FS.eraseFile
  rw [hf]

theorem remove_eq (f : DeployFile) (fs : FS) :
    f.remove fs = .ok (fs.eraseFile f.dst) := by
  unfold DeployFile.remove FS.unlink
  by_cases h : fs.fileExists f.dst
  · simp [h]
  · simp [h, eraseFile_of_not_mem h]

theorem deploy_eq_of_src_present (f : DeployFile) (fs : FS)
    (hsrc : fs.fileExists f.src) (hne : f.src ≠ f.dst) :
    f.deploy fs = .ok ((fs.eraseFile f.dst).addFile f.dst) := by
  have hsrc2 : (fs.eraseFile f.dst).fileExists f.src := mem_eraseFile.mpr ⟨hsrc, hne⟩
  unfold DeployFile.deploy
  rw [remove_eq]
  simp only [FS.copy, if_pos hsrc2]

theorem deploy_eq_of_src_absent (f : DeployFile) (fs : FS)
    (hsrc : ¬ fs.fileExists f.src) :
    f.deploy fs = .ok (fs.eraseFile f.dst) := by
  have hsrc2 : ¬ (fs.eraseFile f.dst).fileExists f.src := by
    intro h
    exact hsrc (mem_eraseFile.mp h).1
  unfold DeployFile.deploy
  rw [remove_eq]
  simp only [FS.copy, if_neg hsrc2]
  simp

theorem mem_deploy_result {fs : FS} {f : DeployFile} {q : FsPath} :
    ((fs.eraseFile f.dst).addFile f.dst).fileExists q ↔ q = f.dst ∨ fs.fileExists q := by
  rw [mem_addFile, mem_eraseFile]
  constructor
  · rintro (h | ⟨h1, _⟩)
    · exact Or.inl h
    · exact Or.inr h1
  · rintro (h | h)
    · exact Or.inl h
    · by_cases hq : q = f.dst
      · exact Or.inl hq
      · exact Or.inr ⟨h, hq⟩

/-! Helper lemmas about the orchestrator steps. -/

theorem killStep_fs (s : Sys) : (killStep s).1.fs = s.fs := by
  unfold killStep kill_process_win
  by_cases h : (s.running && !s.killToolFails) = true <;> simp [h]

theorem killStepUninstall_fs (s : Sys) : (killStepUninstall s).1.fs = s.fs := by
  unfold killStepUninstall kill_process_win
  by_cases h : (s.running && !s.killToolFails) = true <;> simp [h]

theorem killStep_log (s : Sys) :
    (killStep s).2 = [] ∨ (killStep s).2 = [Line.infoLine InfoMsg.oldProcessKilled] := by
  unfold killStep kill_process_win
  by_cases h : (s.running && !s.killToolFails) = true <;> simp [h]

theorem ensureRoot_files (fs : FS) : (ensureRoot fs).files = fs.files := by
  unfold ensureRoot FS.mkdir
  by_cases h : fs.dirExists dst_base <;> simp [h]

theorem ensureRoot_fileExists (fs : FS) (q : FsPath) :
    (ensureRoot fs).fileExists q ↔ fs.fileExists q := by
  unfold FS.fileExists
  rw [ensureRoot_files]

theorem ensureRoot_dirExists (fs : FS) (d : String) :
    (ensureRoot fs).dirExists d ↔ d = dst_base ∨ fs.dirExists d := by
  unfold ensureRoot FS.mkdir
  by_cases h : fs.dirExists dst_base
  · simp only [if_pos h]
    constructor
    · exact fun h2 => Or.inr h2
    · rintro (rfl | h2)
      · exact h
      · exact h2
  · simp only [if_neg h]
    unfold FS.dirExists
    simp [List.mem_cons]

theorem removeDeployed_eq (fs : FS) :
    removeDeployed fs =
      .ok (((fs.eraseFile exe_file.dst).eraseFile
              rocket_config_file.dst).eraseFile dot_env_file.dst) := by
  unfold removeDeployed files_to_deploy
  simp only [List.foldlM, bind, Except.bind, remove_eq, pure, Except.pure]

theorem mem_dstList (q : FsPath) :
    q ∈ dstList ↔ q = exe_file.dst ∨ q = rocket_config_file.dst ∨ q = dot_env_file.dst := by
  simp [dstList, files_to_deploy]

theorem removeDeployed_spec (fs : FS) :
    ∃ fs2, removeDeployed fs = .ok fs2 ∧
      (∀ q, fs2.fileExists q ↔ fs.fileExists q ∧ ¬ q ∈ dstList) ∧
      fs2.dirs = fs.dirs := by
  refine ⟨_, removeDeployed_eq fs, ?_, rfl⟩
  intro q
  rw [mem_eraseFile, mem_eraseFile, mem_eraseFile, mem_dstList]
  constructor
  · rintro ⟨⟨⟨h, h1⟩, h2⟩, h3⟩
    exact ⟨h, by tauto⟩
  · rintro ⟨h, hn⟩
    push_neg at hn
    exact ⟨⟨⟨h, hn.1⟩, hn.2.1⟩, hn.2.2⟩

theorem deployAllFiles_spec (fs : FS)
    (h1 : fs.fileExists exe_file.src)
    (h2 : fs.fileExists rocket_config_file.src)
    (h3 : fs.fileExists dot_env_file.src) :
    ∃ fs3, deployAllFiles fs = .ok fs3 ∧
      (∀ q, fs3.fileExists q ↔ q ∈ dstList ∨ fs.fileExists q) ∧
      fs3.dirs = fs.dirs := by
  have e1 := deploy_eq_of_src_present exe_file fs h1 (by decide)
  have h2a : ((fs.eraseFile exe_file.dst).addFile exe_file.dst).fileExists
      rocket_config_file.src := mem_deploy_result.mpr (Or.inr h2)
  have e2 := deploy_eq_of_src_present rocket_config_file _ h2a (by decide)
  have h3a :
      ((((fs.eraseFile exe_file.dst).addFile exe_file.dst).eraseFile
          rocket_config_file.dst).addFile rocket_config_file.dst).fileExists
        dot_env_file.src :=
    mem_deploy_result.mpr (Or.inr (mem_deploy_result.mpr (Or.inr h3)))
  have e3 := deploy_eq_of_src_present dot_env_file _ h3a (by decide)
  refine ⟨((((((fs.eraseFile exe_file.dst).addFile exe_file.dst).eraseFile
      rocket_config_file.dst).addFile rocket_config_file.dst).eraseFile
      dot_env_file.dst).addFile dot_env_file.dst), ?_, ?_, rfl⟩
  · unfold deployAllFiles files_to_deploy
    simp only [List.foldlM, bind, Except.bind, e1, e2, e3, pure, Except.pure]
  · intro q
    rw [mem_deploy_result, mem_deploy_result, mem_deploy_result, mem_dstList]
    tauto

theorem unschedule_present {fs : FS} (h : fs.fileExists start_script.dst) :
    unschedule fs = .ok (fs.eraseFile start_script.dst) := by
  unfold unschedule FS.unlink
  simp [h]

theorem unschedule_absent {fs : FS} (h : ¬ fs.fileExists start_script.dst) :
    unschedule fs = .error Err.notScheduled := by
  unfold unschedule FS.unlink
  simp [h]

theorem uninstallTail_err (s : Sys) (log : List Line) : (uninstallTail s log).err = none := by
  unfold uninstallTail
  by_cases h : s.fs.fileExists start_script.dst
  · rw [unschedule_present h]
  · rw [unschedule_absent h]
    simp

theorem uninstallTail_spec (s : Sys) (log : List Line) :
    (uninstallTail s log).err = none ∧
    (∀ q, (uninstallTail s log).sys.fs.fileExists q ↔
        s.fs.fileExists q ∧ q ≠ start_script.dst) ∧
    (uninstallTail s log).sys.fs.dirs = s.fs.dirs := by
  unfold uninstallTail
  by_cases h : s.fs.fileExists start_script.dst
  · rw [unschedule_present h]
    refine ⟨rfl, ?_, rfl⟩
    intro q
    exact mem_eraseFile
  · rw [unschedule_absent h]
    refine ⟨rfl, ?_, rfl⟩
    intro q
    constructor
    · intro hq
      refine ⟨hq, ?_⟩
      rintro rfl
      exact h hq
    · exact fun hq => hq.1

theorem rmdir_not_exists {fs : FS} {d : String} (h : ¬ fs.dirExists d) :
    fs.rmdir d = .error Err.fileNotFound := by
  unfold FS.rmdir
  simp [h]

theorem rmdir_nonempty {fs : FS} {d : String} (h : fs.dirExists d)
    (h2 : fs.dirNonEmpty d) : fs.rmdir d = .error Err.dirNotEmpty := by
  unfold FS.rmdir
  simp [h, h2]

theorem rmdir_ok {fs : FS} {d : String} (h : fs.dirExists d)
    (h2 : ¬ fs.dirNonEmpty d) :
    fs.rmdir d = .ok { fs with dirs := fs.dirs.filter (fun x => !decide (x = d)) } := by
  unfold FS.rmdir
  simp [h, h2]

theorem mem_dirs_filter {fs : FS} {d x : String} :
    x ∈ fs.dirs.filter (fun y => !decide (y = d)) ↔ x ∈ fs.dirs ∧ x ≠ d := by
  simp [List.mem_filter]

theorem uninstall_spec (s : Sys)
    (hstray : s.fs.dirExists dst_base →
      ∀ p ∈ s.fs.files, p.dir = dst_base → p ∈ dstList) :
    (uninstall s).err = none ∧
    (∀ q, (uninstall s).sys.fs.fileExists q ↔
        s.fs.fileExists q ∧ ¬ q ∈ dstList ∧ q ≠ start_script.dst) ∧
    ¬ (uninstall s).sys.fs.dirExists dst_base := by
  have hkfs := killStepUninstall_fs s
  obtain ⟨fs2, he, hm, hd⟩ := removeDeployed_spec (killStepUninstall s).1.fs
  simp only [hkfs] at hm hd
  have htrans : ∀ q, (fs2.fileExists q ∧ q ≠ start_script.dst ↔
      s.fs.fileExists q ∧ ¬ q ∈ dstList ∧ q ≠ start_script.dst) := by
    intro q
    constructor
    · rintro ⟨hq, hq2⟩
      obtain ⟨ha, hb⟩ := (hm q).mp hq
      exact ⟨ha, hb, hq2⟩
    · rintro ⟨hq, hq2, hq3⟩
      exact ⟨(hm q).mpr ⟨hq, hq2⟩, hq3⟩
  unfold uninstall
  simp only [he]
  by_cases hdir : fs2.dirExists dst_base
  · have hdirs : s.fs.dirExists dst_base := by
      unfold FS.dirExists at hdir ⊢
      rw [hd] at hdir
      exact hdir
    have hnonempty : ¬ fs2.dirNonEmpty dst_base := by
      rintro ⟨p, hp, hpd⟩
      have hp2 := (hm p).mp hp
      exact hp2.2 (hstray hdirs p hp2.1 hpd)
    simp only [rmdir_ok hdir hnonempty]
    unfold uninstallTail
    dsimp only
    by_cases hstart : fs2.fileExists start_script.dst
    · have hstart2 :
          (FS.mk fs2.files (fs2.dirs.filter (fun x => !decide (x = dst_base)))).fileExists
            start_script.dst := hstart
      simp only [unschedule_present hstart2]
      refine ⟨trivial, ?_, ?_⟩
      · intro q
        exact Iff.trans mem_eraseFile (htrans q)
      · intro hmem
        exact (mem_dirs_filter.mp hmem).2 rfl
    · have hstart2 :
          ¬ (FS.mk fs2.files (fs2.dirs.filter (fun x => !decide (x = dst_base)))).fileExists
            start_script.dst := hstart
      simp only [unschedule_absent hstart2, eq_self_iff_true, if_true]
      refine ⟨trivial, ?_, ?_⟩
      · intro q
        refine Iff.trans ?_ (htrans q)
        constructor
        · intro hq
          refine ⟨hq, ?_⟩
          rintro rfl
          exact hstart hq
        · exact fun hq => hq.1
      · intro hmem
        exact (mem_dirs_filter.mp hmem).2 rfl
  · simp only [rmdir_not_exists hdir, eq_self_iff_true, if_true]
    unfold uninstallTail
    by_cases hstart : fs2.fileExists start_script.dst
    · simp only [unschedule_present hstart]
      refine ⟨trivial, ?_, ?_⟩
      · intro q
        exact Iff.trans mem_eraseFile (htrans q)
      · intro hmem
        exact hdir hmem
    · simp only [unschedule_absent hstart, eq_self_iff_true, if_true]
      refine ⟨trivial, ?_, ?_⟩
      · intro q
        refine Iff.trans ?_ (htrans q)
        constructor
        · intro hq
          refine ⟨hq, ?_⟩
          rintro rfl
          exact hstart hq
        · exact fun hq => hq.1
      · intro hmem
        exact hdir hmem

theorem uninstall_err_of_stray (s : Sys)
    (hdir : s.fs.dirExists dst_base)
    (p : FsPath) (hp : p ∈ s.fs.files) (hpd : p.dir = dst_base)
    (hpn : ¬ p ∈ dstList) :
    (uninstall s).err = some Err.dirNotEmpty := by
  have hkfs := killStepUninstall_fs s
  obtain ⟨fs2, he, hm, hd⟩ := removeDeployed_spec (killStepUninstall s).1.fs
  simp only [hkfs] at hm hd
  have hdir2 : fs2.dirExists dst_base := by
    unfold FS.dirExists
    rw [hd]
    exact hdir
  have hne : fs2.dirNonEmpty dst_base := ⟨p, (hm p).mpr ⟨hp, hpn⟩, hpd⟩
  unfold uninstall
  simp only [he, rmdir_nonempty hdir2 hne]
  simp

theorem deploy_all_build_fail (s : Sys) (hb : s.buildOk = false) :
    deploy_all s =
      { sys := { s with fs := ensureRoot s.fs }, log := [],
        err := some Err.calledProcessError } := by
  simp only [deploy_all]
  rw [if_pos hb]

theorem deploy_all_spec (s : Sys) (hb : s.buildOk = true)
    (h1 : s.fs.fileExists exe_file.src)
    (h2 : s.fs.fileExists rocket_config_file.src)
    (h3 : s.fs.fileExists dot_env_file.src)
    (h4 : s.fs.fileExists start_script.src) :
    (deploy_all s).err = none ∧
    (deploy_all s).sys.running = true ∧
    (∀ q, (deploy_all s).sys.fs.fileExists q ↔
        q ∈ dstList ∨ q = start_script.dst ∨ s.fs.fileExists q) ∧
    (∀ d, (deploy_all s).sys.fs.dirExists d ↔ d = dst_base ∨ s.fs.dirExists d) ∧
    (is_scheduled s.fs →
      Line.infoLine InfoMsg.scheduledAtStartup ∉ (deploy_all s).log) := by
  simp only [deploy_all]
  rw [if_neg (by simp [hb])]
  generalize hK : killStep { s with fs := ensureRoot s.fs } = K
  have hk : K.1.fs = ensureRoot s.fs := by
    rw [← hK]
    exact killStep_fs _
  have h1k : K.1.fs.fileExists exe_file.src := by
    rw [hk]
    exact (ensureRoot_fileExists _ _).mpr h1
  have h2k : K.1.fs.fileExists rocket_config_file.src := by
    rw [hk]
    exact (ensureRoot_fileExists _ _).mpr h2
  have h3k : K.1.fs.fileExists dot_env_file.src := by
    rw [hk]
    exact (ensureRoot_fileExists _ _).mpr h3
  obtain ⟨fs3, he, hm, hd⟩ := deployAllFiles_spec _ h1k h2k h3k
  have hm2 : ∀ q, fs3.fileExists q ↔ q ∈ dstList ∨ s.fs.fileExists q := by
    intro q
    rw [hm q, hk, ensureRoot_fileExists]
  have hdirs3 : ∀ d, fs3.dirExists d ↔ d = dst_base ∨ s.fs.dirExists d := by
    intro d
    unfold FS.dirExists
    rw [hd, hk]
    exact ensureRoot_dirExists s.fs d
  have hKlog : Line.infoLine InfoMsg.scheduledAtStartup ∉ K.2 := by
    rw [← hK]
    rcases killStep_log { s with fs := ensureRoot s.fs } with h | h <;> simp [h]
  simp only [he]
  by_cases hsch : is_scheduled fs3
  · rw [if_pos hsch]
    have hexe2 : execute_file_bg { K.1 with fs := fs3 } =
        .ok { { K.1 with fs := fs3 } with running := true } := by
      unfold execute_file_bg
      rw [if_pos (show ({ K.1 with fs := fs3 } : Sys).fs.fileExists exe_file.dst from
        (hm2 exe_file.dst).mpr (Or.inl (by decide)))]
    simp only [hexe2]
    refine ⟨by trivial, by trivial, ?_, ?_, ?_⟩
    · intro q
      show fs3.fileExists q ↔ _
      constructor
      · intro h
        rcases (hm2 q).mp h with h | h
        · exact Or.inl h
        · exact Or.inr (Or.inr h)
      · rintro (h | rfl | h)
        · exact (hm2 q).mpr (Or.inl h)
        · exact hsch
        · exact (hm2 q).mpr (Or.inr h)
    · intro d
      show fs3.dirExists d ↔ _
      exact hdirs3 d
    · intro hs0
      simp only [List.mem_append]
      rintro (h | h)
      · exact hKlog h
      · simp at h
  · rw [if_neg hsch]
    have h4f : fs3.fileExists start_script.src := (hm2 _).mpr (Or.inr h4)
    have hschEq : schedule fs3 =
        .ok ((fs3.eraseFile start_script.dst).addFile start_script.dst) := by
      unfold schedule
      exact deploy_eq_of_src_present start_script fs3 h4f (by decide)
    simp only [hschEq]
    have hexe2 : execute_file_bg
        { K.1 with fs := (fs3.eraseFile start_script.dst).addFile start_script.dst } =
        .ok { { K.1 with
                fs := (fs3.eraseFile start_script.dst).addFile start_script.dst }
              with running := true } := by
      unfold execute_file_bg
      rw [if_pos (show ({ K.1 with
          fs := (fs3.eraseFile start_script.dst).addFile start_script.dst } : Sys).fs.fileExists
            exe_file.dst from
        mem_deploy_result.mpr (Or.inr ((hm2 exe_file.dst).mpr (Or.inl (by decide)))))]
    simp only [hexe2]
    refine ⟨by trivial, by trivial, ?_, ?_, ?_⟩
    · intro q
      show ((fs3.eraseFile start_script.dst).addFile start_script.dst).fileExists q ↔ _
      rw [mem_deploy_result]
      constructor
      · rintro (h | h)
        · exact Or.inr (Or.inl h)
        · rcases (hm2 q).mp h with h2 | h2
          · exact Or.inl h2
          · exact Or.inr (Or.inr h2)
      · rintro (h | rfl | h)
        · exact Or.inr ((hm2 q).mpr (Or.inl h))
        · exact Or.inl rfl
        · exact Or.inr ((hm2 q).mpr (Or.inr h))
    · intro d
      show fs3.dirExists d ↔ _
      exact hdirs3 d
    · intro hs0
      exact absurd ((hm2 start_script.dst).mpr (Or.inr hs0)) hsch

/-! The claim theorems. -/

/-- Claim C10: for every DeployFile whose source file is absent, deploy
completes without raising and leaves the destination absent: it first
deletes any previously deployed file at the destination and then the
suppressed copy silently skips, so deploying over an existing install with
a missing source destroys the installed file rather than failing or
leaving it in place. -/
theorem c10_deploy_missing_source (f : DeployFile) (fs : FS)
    (h : ¬ fs.fileExists f.src) :
    f.deploy fs = .ok (fs.eraseFile f.dst) ∧
    ¬ (fs.eraseFile f.dst).fileExists f.dst := by
  refine ⟨deploy_eq_of_src_absent f fs h, ?_⟩
  intro h2
  exact (mem_eraseFile.mp h2).2 rfl

/-- Witness for C10 at the concrete state fsW10: the deployed executable
is present at its destination, the build output is absent, and deploy
returns successfully with the destination gone. -/
theorem c10_witness :
    (¬ fsW10.fileExists exe_file.src) ∧
    (exe_file.deploy fsW10 = .ok (fsW10.eraseFile exe_file.dst) ∧
      ¬ (fsW10.eraseFile exe_file.dst).fileExists exe_file.dst) :=
  ⟨by decide, c10_deploy_missing_source exe_file fsW10 (by decide)⟩

/-- Counterexample to claim C1 as stated: at the concrete state fsC1 the
source of the executable DeployFile is missing, yet deploy returns
successfully - the copy failure is suppressed inside deploy, nothing
propagates to the caller, and there is no CopyError anywhere in the code.
The previously deployed destination is destroyed in the process. -/
theorem c1_counterexample :
    ¬ fsC1.fileExists exe_file.src ∧
    exe_file.deploy fsC1 = .ok (fsC1.eraseFile exe_file.dst) ∧
    fsC1.fileExists exe_file.dst ∧
    ¬ (fsC1.eraseFile exe_file.dst).fileExists exe_file.dst := by decide

/-- Claim C1 (amended): for every DeployFile whose source file does not
exist at deploy time, deploy does not fail: the FileNotFoundError raised
by the copy is suppressed inside deploy and no error of any kind reaches
the caller. -/
theorem c1_deploy_missing_source_swallowed (f : DeployFile) (fs : FS)
    (h : ¬ fs.fileExists f.src) : ¬ deployRaises f fs := by
  rintro ⟨e, he⟩
  rw [deploy_eq_of_src_absent f fs h] at he
  exact Except.noConfusion he

/-- Witness for the amended C1: deploying the executable over the empty
filesystem (source missing) raises nothing. -/
theorem c1_witness :
    (¬ fsEmpty.fileExists exe_file.src) ∧ ¬ deployRaises exe_file fsEmpty :=
  ⟨by decide, c1_deploy_missing_source_swallowed exe_file fsEmpty (by decide)⟩

/-- Counterexample to claim C2 as stated: with a stray user file inside
the existing install root, Uninstall raises the directory-not-empty
OSError out of rmdir (only FileNotFoundError is suppressed around it) and
never reports overall success, contradicting both the silent tolerance of
a non-empty install root and the always-reports-success property. -/
theorem c2_counterexample :
    (uninstall sC2).err = some Err.dirNotEmpty ∧
    Line.infoLine InfoMsg.uninstalled ∉ (uninstall sC2).log := by decide

/-- Claim C2 (amended): Uninstall surfaces no error from killing a
non-running process, from removing already-absent files, from a missing
install root, or from unscheduling when not scheduled; it fails exactly
when the install root directory exists and, after the per-file removals,
still contains a file that is not one of the install-set destinations
(rmdir then raises the directory-not-empty OSError, which is not a
FileNotFoundError and therefore propagates). -/
theorem c2_uninstall_err_iff (s : Sys) :
    (uninstall s).err = none ↔
      (s.fs.dirExists dst_base →
        ∀ p ∈ s.fs.files, p.dir = dst_base → p ∈ dstList) := by
  constructor
  · intro h hdir p hp hpd
    by_contra hpn
    rw [uninstall_err_of_stray s hdir p hp hpd hpn] at h
    exact Option.noConfusion h
  · intro hcond
    exact (uninstall_spec s hcond).1

/-- Witness for the amended C2 at a concrete state with no install root. -/
theorem c2_witness : (uninstall sysOkBase).err = none :=
  (c2_uninstall_err_iff sysOkBase).mpr (by decide)

theorem kill_win_err {s : Sys} (h : s.running = false ∨ s.killToolFails = true) :
    kill_process_win s = .error (Err.processKillError KillMsg.wentWrong) := by
  unfold kill_process_win
  rcases h with h | h <;> simp [h]

theorem kill_win_ok {s : Sys} (h1 : s.running = true) (h2 : s.killToolFails = false) :
    kill_process_win s = .ok { s with running := false } := by
  unfold kill_process_win
  simp [h1, h2]

/-- Counterexample to claim C3 as stated: at the concrete state sC3 the
process is running and the kill utility fails for a reason other than the
process being absent, yet the kill flag reports the process as not
running, exits 0, and propagates nothing - the failure does not become a
fatal error of the operation. -/
theorem c3_counterexample :
    sC3.running = true ∧ sC3.killToolFails = true ∧
    mainFn Args.killFlag sC3 =
      { sys := sC3, log := [Line.infoLine InfoMsg.processNotRunning],
        exitCode := 0, uncaught := none } := by decide

/-- Claim C3 (amended): with a valid configuration, the kill flag never
lets any exception reach the top level and always exits 0: when the kill
succeeds it reports the process killed, and on every ProcessKillError -
the not-running case and every other kill failure alike, since the handler
catches the whole class - it reports the process as not running. -/
theorem c3_kill_flag_amended (s : Sys) (hc : handle_invalid_config s = none) :
    ((s.running = false ∨ s.killToolFails = true) →
      mainFn Args.killFlag s =
        { sys := s, log := [Line.infoLine InfoMsg.processNotRunning],
          exitCode := 0, uncaught := none }) ∧
    (s.running = true → s.killToolFails = false →
      mainFn Args.killFlag s =
        { sys := { s with running := false },
          log := [Line.infoLine InfoMsg.processKilled],
          exitCode := 0, uncaught := none }) := by
  constructor
  · intro h
    unfold mainFn
    simp only [hc, kill_win_err h]
  · intro h1 h2
    unfold mainFn
    simp only [hc, kill_win_ok h1 h2]

/-- Witness for the amended C3: with no process running, the kill flag
reports not running and exits 0. -/
theorem c3_witness :
    mainFn Args.killFlag sNR =
      { sys := sNR, log := [Line.infoLine InfoMsg.processNotRunning],
        exitCode := 0, uncaught := none } :=
  (c3_kill_flag_amended sNR (by decide)).1 (Or.inl (by decide))

/-- Counterexample to claim C4 as stated: on Windows, the call where the
target process does not exist (state sNR) and the call where the
termination command itself errors (state sTF) produce the identical error
value - one shared ProcessKillError with the same generic message - so no
distinct recoverable ProcessNotRunningError exists. -/
theorem c4_counterexample :
    sNR.running = false ∧ sTF.running = true ∧ sTF.killToolFails = true ∧
    kill_process_win sNR = .error (Err.processKillError KillMsg.wentWrong) ∧
    kill_process_win sTF = .error (Err.processKillError KillMsg.wentWrong) ∧
    kill_process_win sNR = kill_process_win sTF := by decide

/-- Claim C4 (amended): a single ProcessKillError class covers both
failure modes.  On macOS the code does distinguish the modes, but only by
message: a missing process raises ProcessKillError with the isnt-running
message before the kill command runs, and a kill-command error raises
ProcessKillError with the generic details message.  On Windows the two
modes are not distinguished at all: both produce the same generic
ProcessKillError. -/
theorem c4_kill_modes_amended (s : Sys) :
    (s.running = false →
      kill_process_mac s = .error (Err.processKillError KillMsg.isntRunning)) ∧
    (s.running = true → s.killToolFails = true →
      kill_process_mac s = .error (Err.processKillError KillMsg.wentWrong)) ∧
    ((s.running = false ∨ s.killToolFails = true) →
      kill_process_win s = .error (Err.processKillError KillMsg.wentWrong)) := by
  refine ⟨?_, ?_, ?_⟩
  · intro h
    unfold kill_process_mac
    simp [h]
  · intro h1 h2
    unfold kill_process_mac
    simp [h1, h2]
  · exact kill_win_err

/-- Witness for the amended C4 at the concrete states sNR and sTF. -/
theorem c4_witness :
    kill_process_mac sNR = .error (Err.processKillError KillMsg.isntRunning) ∧
    kill_process_mac sTF = .error (Err.processKillError KillMsg.wentWrong) ∧
    kill_process_win sTF = .error (Err.processKillError KillMsg.wentWrong) :=
  ⟨(c4_kill_modes_amended sNR).1 (by decide),
   (c4_kill_modes_amended sTF).2.1 (by decide) (by decide),
   (c4_kill_modes_amended sTF).2.2 (Or.inr (by decide))⟩

/-- Counterexample to claim C5 as stated: a fatal configuration error (no
Rocket.toml) is printed as a single [error] line, but the process then
exits with status 0, because exit_with_err calls exit() with no argument -
so a non-success run terminates with a zero exit status. -/
theorem c5_counterexample :
    mainFn Args.deployDefault sC5 =
      { sys := sC5, log := [Line.errLine ErrMsg.noRocketToml],
        exitCode := 0, uncaught := none } := by decide

/-- Claim C5 (amended): fatal configuration errors are printed as a
single-line [error] message but terminate with exit status 0 (exit() is
called with no argument); a fatal build failure instead propagates as an
uncaught CalledProcessError, terminating with a non-zero status and no
[error] line.  The program therefore does not exit non-zero on every
failure, and exit 0 does not imply success. -/
theorem c5_exit_behavior_amended (a : Args) (s : Sys) :
    (∀ m, handle_invalid_config s = some m →
      mainFn a s =
        { sys := s, log := [Line.errLine m], exitCode := 0, uncaught := none }) ∧
    (handle_invalid_config s = none → s.buildOk = false →
      mainFn Args.deployDefault s =
        { sys := { s with fs := ensureRoot s.fs }, log := [],
          exitCode := 1, uncaught := some Err.calledProcessError }) := by
  constructor
  · intro m hm
    unfold mainFn
    simp only [hm]
  · intro hc hb
    unfold mainFn
    simp only [hc, deploy_all_build_fail s hb, runToOutcome]

/-- Witness for the amended C5: with a valid configuration and a failing
build, deploy exits 1 with an uncaught CalledProcessError and no [error]
line. -/
theorem c5_witness :
    mainFn Args.deployDefault sW5 =
      { sys := { sW5 with fs := ensureRoot sW5.fs }, log := [],
        exitCode := 1, uncaught := some Err.calledProcessError } :=
  (c5_exit_behavior_amended Args.deployDefault sW5).2 (by decide) (by decide)

/-- Counterexample to claim C7 as stated: the configuration check also
runs before the location query - with the key absent, the location flag
prints the configuration error and exits without ever printing the
location, although the claim exempts the location path from the check. -/
theorem c7_counterexample :
    mainFn Args.location sC7 =
      { sys := sC7, log := [Line.errLine ErrMsg.keyMissing],
        exitCode := 0, uncaught := none } ∧
    Line.locationLine ∉ (mainFn Args.location sC7).log := by decide

/-- Claim C7 (amended): the configuration check runs before every
operation, the location query included (only help exits earlier, inside
argument parsing); whenever the key is absent from both the environment
and the source .env file, every operation - Deploy, Kill, Uninstall and
the location query - fails immediately with a single configuration error
line, before any filesystem or process mutation. -/
theorem c7_config_check_amended (a : Args) (s : Sys)
    (h1 : s.keyEnvVar = false)
    (h2 : ¬ (s.fs.fileExists dot_env_file.src ∧ s.dotEnvHasKey = true)) :
    (mainFn a s).sys = s ∧ (mainFn a s).uncaught = none ∧
    (mainFn a s).exitCode = 0 ∧
    ((mainFn a s).log = [Line.errLine ErrMsg.noRocketToml] ∨
     (mainFn a s).log = [Line.errLine ErrMsg.keyMissing]) := by
  have hc : handle_invalid_config s = some ErrMsg.noRocketToml ∨
      handle_invalid_config s = some ErrMsg.keyMissing := by
    unfold handle_invalid_config
    by_cases hr : s.fs.fileExists rocket_config_file.src
    · right
      rw [if_neg (not_not_intro hr), if_neg (by simp [h1]), if_neg h2]
    · left
      rw [if_pos hr]
  rcases hc with hc | hc
  · unfold mainFn
    simp only [hc]
    exact ⟨by trivial, by trivial, by trivial, Or.inl (by trivial)⟩
  · unfold mainFn
    simp only [hc]
    exact ⟨by trivial, by trivial, by trivial, Or.inr (by trivial)⟩

/-- Witness for the amended C7: with the key missing everywhere, the
uninstall flag leaves the state untouched and reports a configuration
error. -/
theorem c7_witness :
    (mainFn Args.uninstallFlag sC7).sys = sC7 ∧
    (mainFn Args.uninstallFlag sC7).uncaught = none := by
  have h := c7_config_check_amended Args.uninstallFlag sC7 (by decide) (by decide)
  exact ⟨h.1, h.2.1⟩

/-- Claim C6: Deploy performs its steps in the fixed order - ensure the
install root directory exists (tolerating already-exists, so the root
exists afterwards in every case), run the external build, kill any running
instance with the failure swallowed, copy every file of the install set,
schedule startup launch only when not already scheduled, then launch the
executable in the background - and any non-zero build exit is fatal,
aborting deployment before any file is copied, before the kill step, and
with nothing printed. -/
theorem c6_deploy_order (s : Sys) :
    (s.buildOk = false →
      (deploy_all s).err = some Err.calledProcessError ∧
      (deploy_all s).sys.fs.files = s.fs.files ∧
      (deploy_all s).sys.fs.dirExists dst_base ∧
      (deploy_all s).sys.running = s.running ∧
      (deploy_all s).log = []) ∧
    (s.buildOk = true →
      (∀ f ∈ files_to_deploy, s.fs.fileExists f.src) →
      s.fs.fileExists start_script.src →
      (deploy_all s).err = none ∧
      (∀ f ∈ files_to_deploy, (deploy_all s).sys.fs.fileExists f.dst) ∧
      is_scheduled (deploy_all s).sys.fs ∧
      (deploy_all s).sys.running = true ∧
      (is_scheduled s.fs →
        Line.infoLine InfoMsg.scheduledAtStartup ∉ (deploy_all s).log)) := by
  constructor
  · intro hb
    rw [deploy_all_build_fail s hb]
    exact ⟨rfl, ensureRoot_files s.fs,
      (ensureRoot_dirExists s.fs dst_base).mpr (Or.inl rfl), rfl, rfl⟩
  · intro hb hsrc hst
    have h1 := hsrc exe_file (by decide)
    have h2 := hsrc rocket_config_file (by decide)
    have h3 := hsrc dot_env_file (by decide)
    obtain ⟨he, hrun, hm, _, hlog⟩ := deploy_all_spec s hb h1 h2 h3 hst
    refine ⟨he, ?_, ?_, hrun, hlog⟩
    · intro f hf
      exact (hm f.dst).mpr (Or.inl (List.mem_map.mpr ⟨f, hf, rfl⟩))
    · exact (hm start_script.dst).mpr (Or.inr (Or.inl rfl))

/-- Witness for C6 at the concrete state sW9 (all sources present, healthy
build): the success branch of the order theorem applies, and the deployed
executable exists afterwards. -/
theorem c6_witness :
    sW9.buildOk = true ∧ (deploy_all sW9).err = none ∧
    is_scheduled (deploy_all sW9).sys.fs ∧
    (deploy_all sW9).sys.running = true ∧
    (deploy_all sW9).sys.fs.fileExists exe_file.dst := by
  have h := (c6_deploy_order sW9).2 (by decide) (by decide) (by decide)
  exact ⟨by decide, h.1, h.2.2.1, h.2.2.2.1, h.2.1 exe_file (by decide)⟩

/-- Counterexample to claim C9 as stated: from the starting state sC9 (all
source files present, but a stray user file inside the install root),
Deploy succeeds and schedules, yet the subsequent Uninstall raises the
directory-not-empty OSError, after which the schedule predicate is still
true, the install root still exists, and the stray file is still there -
so the round trip does not hold for every starting state with all sources
present. -/
theorem c9_counterexample :
    (deploy_all sC9).err = none ∧
    is_scheduled (deploy_all sC9).sys.fs ∧
    (uninstall (deploy_all sC9).sys).err = some Err.dirNotEmpty ∧
    is_scheduled (uninstall (deploy_all sC9).sys).sys.fs ∧
    (uninstall (deploy_all sC9).sys).sys.fs.dirExists dst_base ∧
    (uninstall (deploy_all sC9).sys).sys.fs.fileExists strayFile := by decide

/-- Claim C9 (amended): the Deploy-then-Uninstall round trip holds for
every starting state in which all source files are present and every file
inside the install root is one of the install-set destinations: after
Deploy every destination exists and the schedule predicate is true; after
the subsequent Uninstall no destination exists, the install root is
absent, and the schedule predicate is false. -/
theorem c9_roundtrip_amended (s : Sys) (hb : s.buildOk = true)
    (hsrc : ∀ f ∈ files_to_deploy, s.fs.fileExists f.src)
    (hst : s.fs.fileExists start_script.src)
    (hclean : ∀ p ∈ s.fs.files, p.dir = dst_base → p ∈ dstList) :
    (deploy_all s).err = none ∧
    (∀ f ∈ files_to_deploy, (deploy_all s).sys.fs.fileExists f.dst) ∧
    is_scheduled (deploy_all s).sys.fs ∧
    (uninstall (deploy_all s).sys).err = none ∧
    (∀ f ∈ files_to_deploy,
      ¬ (uninstall (deploy_all s).sys).sys.fs.fileExists f.dst) ∧
    ¬ (uninstall (deploy_all s).sys).sys.fs.dirExists dst_base ∧
    ¬ is_scheduled (uninstall (deploy_all s).sys).sys.fs := by
  have h1 := hsrc exe_file (by decide)
  have h2 := hsrc rocket_config_file (by decide)
  have h3 := hsrc dot_env_file (by decide)
  obtain ⟨he, hrun, hm, hdirs, hlog⟩ := deploy_all_spec s hb h1 h2 h3 hst
  have hstray2 : (deploy_all s).sys.fs.dirExists dst_base →
      ∀ p ∈ (deploy_all s).sys.fs.files, p.dir = dst_base → p ∈ dstList := by
    intro _ p hp hpd
    rcases (hm p).mp hp with h | h | h
    · exact h
    · exfalso
      rw [h] at hpd
      exact (by decide : ¬ (start_script.dst.dir = dst_base)) hpd
    · exact hclean p h hpd
  obtain ⟨hue, hum, hud⟩ := uninstall_spec (deploy_all s).sys hstray2
  refine ⟨he, ?_, ?_, hue, ?_, hud, ?_⟩
  · intro f hf
    exact (hm f.dst).mpr (Or.inl (List.mem_map.mpr ⟨f, hf, rfl⟩))
  · exact (hm start_script.dst).mpr (Or.inr (Or.inl rfl))
  · intro f hf h
    exact ((hum f.dst).mp h).2.1 (List.mem_map.mpr ⟨f, hf, rfl⟩)
  · intro h
    exact ((hum start_script.dst).mp h).2.2 rfl

/-- Witness for the amended C9 at the concrete state sW9: a full
round trip with all sources present and a clean install root. -/
theorem c9_witness :
    (deploy_all sW9).err = none ∧
    is_scheduled (deploy_all sW9).sys.fs ∧
    (uninstall (deploy_all sW9).sys).err = none ∧
    ¬ (uninstall (deploy_all sW9).sys).sys.fs.dirExists dst_base ∧
    ¬ is_scheduled (uninstall (deploy_all sW9).sys).sys.fs := by
  have h := c9_roundtrip_amended sW9 (by decide) (by decide) (by decide) (by decide)
  exact ⟨h.1, h.2.2.1, h.2.2.2.1, h.2.2.2.2.2.1, h.2.2.2.2.2.2⟩

/-- The Windows scheduler variant does satisfy the unschedule contract of
the claim: in the not-scheduled state unschedule raises NotScheduledError,
and otherwise it removes the startup file, leaving the not-scheduled
state. -/
theorem win_unschedule_contract (fs : FS) :
    (¬ is_scheduled fs → unschedule fs = .error Err.notScheduled) ∧
    (is_scheduled fs →
      unschedule fs = .ok (fs.eraseFile start_script.dst) ∧
      ¬ is_scheduled (fs.eraseFile start_script.dst)) := by
  constructor
  · exact unschedule_absent
  · intro h
    exact ⟨unschedule_present h, fun h2 => (mem_eraseFile.mp h2).2 rfl⟩

/-- Claim C8 (code bug, macOS variant): unschedule never raises
NotScheduledError and never changes the schedule state, because its body
evaluates the unbound name cron and therefore raises NameError in every
state - in particular in the not-scheduled state, where the claim requires
NotScheduledError.  (The Windows variant satisfies the contract, see
win_unschedule_contract.) -/
theorem c8_mac_unschedule_name_error :
    macUnschedule false = .error (Err.nameError PyName.cron) ∧
    macUnschedule true = .error (Err.nameError PyName.cron) ∧
    Err.nameError PyName.cron ≠ Err.notScheduled := by decide
